import Mathlib

/-!
Verification of the Arduino-Log library (src/ArduinoLog.h, src/ArduinoLog.cpp)
via a shallow embedding.

The library is a single `Logging` class: an integer severity threshold
`_level`, a boolean `_showLevel`, a borrowed sink pointer `_logOutput`
(`Print*`), and two optional hook function pointers (fields `_prefix` and
`_suffix` in the source, modelled here as `_preHook` and `_postHook`).
All six tier entry points (`fatal` .. `trace`) route through the private
`printLevel`, which filters by threshold, invokes the hooks, optionally
emits a one-character glyph plus `": "`, and forwards the format string
and arguments to the sink's `printf`.

Modelling choices:
- Pointers (`Print*`, `printfunction`) are modelled by their identity as
  `Option Nat` (`none` = null pointer).
- The observable behaviour of a dispatch is a trace of events: hook
  invocations (tagged by call site, with the pointer argument passed) and
  sink writes (`print` of a char, `print` of a string, `printf`).
- Calling a method on a null `Print*` is a fault (undefined behaviour in
  the C++); a `DispatchResult` records the events emitted before the
  fault together with a fault flag.
- The variadic arguments forwarded to the sink's `printf` are modelled
  opaquely as a `List Int`; the format string as a `String`.  The logger
  never inspects them, matching the source.
-/

/-- Model of the `Print*` sink pointer target: a pointer identity. -/
abbrev PrintPtr := Nat

/-- Model of `printfunction` (`void (*)(Print*)`): a function-pointer identity. -/
abbrev HookPtr := Nat

/-- `#define LOG_LEVEL_SILENT 0` -/
def LOG_LEVEL_SILENT : Int := 0
/-- `#define LOG_LEVEL_FATAL 1` -/
def LOG_LEVEL_FATAL : Int := 1
/-- `#define LOG_LEVEL_ERROR 2` -/
def LOG_LEVEL_ERROR : Int := 2
/-- `#define LOG_LEVEL_WARN 3` -/
def LOG_LEVEL_WARN : Int := 3
/-- `#define LOG_LEVEL_INFO 4` -/
def LOG_LEVEL_INFO : Int := 4
/-- `#define LOG_LEVEL_DEBUG 5` -/
def LOG_LEVEL_DEBUG : Int := 5
/-- `#define LOG_LEVEL_TRACE 6` -/
def LOG_LEVEL_TRACE : Int := 6

/-- Arduino's `constrain(amt, low, high)` macro:
`((amt)<(low)?(low):((amt)>(high)?(high):(amt)))`. -/
def constrain (amt low high : Int) : Int :=
  if amt < low then low else if amt > high then high else amt

/-- The member state of class `Logging` (ArduinoLog.h:273-280).
`_preHook` and `_postHook` embed the source fields `_prefix` and
`_suffix` (renamed only because of lexical constraints of this
development). -/
structure Logging where
  _level : Int
  _showLevel : Bool
  _logOutput : Option PrintPtr
  _preHook : Option HookPtr
  _postHook : Option HookPtr
deriving DecidableEq, Repr

/-- The default constructor `Logging()` (ArduinoLog.h:73-81):
`_level(LOG_LEVEL_SILENT), _showLevel(true), _logOutput(nullptr)`,
with the hook members default-initialised to `nullptr`. -/
def Logging.init : Logging :=
  { _level := LOG_LEVEL_SILENT
    _showLevel := true
    _logOutput := none
    _preHook := none
    _postHook := none }

/-- `Logging::setLevel` (ArduinoLog.cpp:43-48):
`_level = constrain(level, LOG_LEVEL_SILENT, LOG_LEVEL_TRACE);` -/
def Logging.setLevel (s : Logging) (level : Int) : Logging :=
  { s with _level := constrain level LOG_LEVEL_SILENT LOG_LEVEL_TRACE }

/-- `Logging::getLevel` (ArduinoLog.cpp:50-57): `return _level;` -/
def Logging.getLevel (s : Logging) : Int := s._level

/-- `Logging::setShowLevel` (ArduinoLog.cpp:59-64): `_showLevel = showLevel;` -/
def Logging.setShowLevel (s : Logging) (showLevel : Bool) : Logging :=
  { s with _showLevel := showLevel }

/-- `Logging::getShowLevel` (ArduinoLog.cpp:66-73): `return _showLevel;` -/
def Logging.getShowLevel (s : Logging) : Bool := s._showLevel

/-- `Logging::setPrefix` (ArduinoLog.cpp:75-80): stores `f` into the
pre-hook slot (source field `_prefix`). -/
def Logging.setPreHook (s : Logging) (f : Option HookPtr) : Logging :=
  { s with _preHook := f }

/-- `Logging::setSuffix` (ArduinoLog.cpp:82-87): stores `f` into the
post-hook slot (source field `_suffix`). -/
def Logging.setPostHook (s : Logging) (f : Option HookPtr) : Logging :=
  { s with _postHook := f }

/-- `Logging::begin` (ArduinoLog.cpp:34-41):
`setLevel(level); setShowLevel(showLevel); _logOutput = logOutput;` -/
def Logging.begin (s : Logging) (level : Int) (logOutput : Option PrintPtr)
    (showLevel : Bool) : Logging :=
  { (s.setLevel level).setShowLevel showLevel with _logOutput := logOutput }

/-- One observable step of a dispatch.  Hook invocations are tagged by
their call site (the pre-hook call at ArduinoLog.h:255, the post-hook
call at ArduinoLog.h:268) and record the pointer argument the hook
receives; sink writes record the sink the method is called on. -/
inductive Event where
  | callPre (f : HookPtr) (arg : Option PrintPtr)
  | callPost (f : HookPtr) (arg : Option PrintPtr)
  | printChar (sink : PrintPtr) (c : Char)
  | printStr (sink : PrintPtr) (str : String)
  | printfCall (sink : PrintPtr) (msg : String) (args : List Int)
deriving DecidableEq, Repr

/-- Whether an event is a write on the sink (`print`/`printf` method call). -/
def Event.isSinkWrite : Event → Bool
  | .printChar _ _ => true
  | .printStr _ _ => true
  | .printfCall _ _ _ => true
  | _ => false

/-- Whether an event is a pre-hook invocation. -/
def Event.isPre : Event → Bool
  | .callPre _ _ => true
  | _ => false

/-- Whether an event is a post-hook invocation. -/
def Event.isPost : Event → Bool
  | .callPost _ _ => true
  | _ => false

/-- Whether an event is a hook invocation (pre or post). -/
def Event.isHookCall (e : Event) : Bool := e.isPre || e.isPost

/-- Result of one dispatch: the trace of events actually performed, and
whether execution faulted (a method call on a null `Print*`).  On a
fault, `events` holds what was emitted before the faulting statement. -/
structure DispatchResult where
  events : List Event
  fault : Bool
deriving DecidableEq, Repr

/-- `static const char levels[] = "FEWIDT";` (ArduinoLog.h:259) -/
def levelGlyphs : List Char := ['F', 'E', 'W', 'I', 'D', 'T']

/-- The character `levels[level - 1]` (ArduinoLog.h:260).  `printLevel`
is only reached with `level` in 1..6 (the six entry points pass the
fixed tier constants), so the index is always in range; the default of
`getD` is never used on reachable calls. -/
def glyphAt (level : Int) : Char := levelGlyphs.getD (level - 1).toNat 'F'

/-- `Logging::printLevel` (ArduinoLog.h:245-271):
```
if (level > _level) { return; }
if (_prefix != nullptr) { _prefix(_logOutput); }
if (_showLevel) {
  static const char levels[] = "FEWIDT";
  _logOutput->print(levels[level - 1]);
  _logOutput->print(": ");
}
_logOutput->printf(msg, args...);
if (_suffix != nullptr) { _suffix(_logOutput); }
```
Note the source checks the hooks for null but never checks `_logOutput`:
when the call passes the threshold filter and `_logOutput` is null, the
first sink method call (`->print` if `_showLevel`, else `->printf`)
dereferences a null pointer — modelled as a fault after the pre-hook
invocation. -/
def Logging.printLevel (s : Logging) (level : Int) (msg : String)
    (args : List Int) : DispatchResult :=
  if level > s._level then
    { events := [], fault := false }
  else
    let preEvents : List Event :=
      match s._preHook with
      | some f => [Event.callPre f s._logOutput]
      | none => []
    match s._logOutput with
    | none => { events := preEvents, fault := true }
    | some out =>
        let glyphEvents : List Event :=
          if s._showLevel then
            [Event.printChar out (glyphAt level), Event.printStr out ": "]
          else []
        let bodyEvents : List Event := [Event.printfCall out msg args]
        let postEvents : List Event :=
          match s._postHook with
          | some f => [Event.callPost f s._logOutput]
          | none => []
        { events := preEvents ++ glyphEvents ++ bodyEvents ++ postEvents
          fault := false }

/-- `Logging::fatal` (ArduinoLog.h:153-158): calls
`printLevel(LOG_LEVEL_FATAL, msg, args...)`; the method performs no
member writes, so the state is returned unchanged. -/
def Logging.fatal (s : Logging) (msg : String) (args : List Int) :
    Logging × DispatchResult :=
  (s, s.printLevel LOG_LEVEL_FATAL msg args)

/-- `Logging::error` (ArduinoLog.h:170-174). -/
def Logging.error (s : Logging) (msg : String) (args : List Int) :
    Logging × DispatchResult :=
  (s, s.printLevel LOG_LEVEL_ERROR msg args)

/-- `Logging::warn` (ArduinoLog.h:186-191). -/
def Logging.warn (s : Logging) (msg : String) (args : List Int) :
    Logging × DispatchResult :=
  (s, s.printLevel LOG_LEVEL_WARN msg args)

/-- `Logging::info` (ArduinoLog.h:203-208). -/
def Logging.info (s : Logging) (msg : String) (args : List Int) :
    Logging × DispatchResult :=
  (s, s.printLevel LOG_LEVEL_INFO msg args)

/-- `Logging::debug` (ArduinoLog.h:220-225). -/
def Logging.debug (s : Logging) (msg : String) (args : List Int) :
    Logging × DispatchResult :=
  (s, s.printLevel LOG_LEVEL_DEBUG msg args)

/-- `Logging::trace` (ArduinoLog.h:237-242). -/
def Logging.trace (s : Logging) (msg : String) (args : List Int) :
    Logging × DispatchResult :=
  (s, s.printLevel LOG_LEVEL_TRACE msg args)

/-- A public operation on the logger, for stating invariants over
arbitrary finite call sequences. -/
inductive Op where
  | beginOp (level : Int) (out : Option PrintPtr) (showLevel : Bool)
  | setLevelOp (level : Int)
  | setShowLevelOp (b : Bool)
  | setPreHookOp (f : Option HookPtr)
  | setPostHookOp (f : Option HookPtr)
  | logOp (tier : Int) (msg : String) (args : List Int)
deriving DecidableEq, Repr

/-- State transition of one public operation.  Logging calls perform no
member writes (see `Logging.printLevel`), so `logOp` leaves the state
unchanged. -/
def applyOp (s : Logging) : Op → Logging
  | .beginOp level out showLevel => s.begin level out showLevel
  | .setLevelOp level => s.setLevel level
  | .setShowLevelOp b => s.setShowLevel b
  | .setPreHookOp f => s.setPreHook f
  | .setPostHookOp f => s.setPostHook f
  | .logOp _ _ _ => s

/-- Run a finite sequence of public operations from a state. -/
def runOps (s : Logging) (ops : List Op) : Logging := ops.foldl applyOp s

/-! ## Helper lemmas -/

/-- `constrain` into `[SILENT, TRACE]` always lands in `[0, 6]`. -/
theorem constrain_level_range (x : Int) :
    0 ≤ constrain x LOG_LEVEL_SILENT LOG_LEVEL_TRACE
    ∧ constrain x LOG_LEVEL_SILENT LOG_LEVEL_TRACE ≤ 6 := by
  simp only [constrain, LOG_LEVEL_SILENT, LOG_LEVEL_TRACE]
  split_ifs <;> omega

/-- `constrain` into `[SILENT, TRACE]` is idempotent. -/
theorem constrain_level_idem (x : Int) :
    constrain (constrain x LOG_LEVEL_SILENT LOG_LEVEL_TRACE)
        LOG_LEVEL_SILENT LOG_LEVEL_TRACE
    = constrain x LOG_LEVEL_SILENT LOG_LEVEL_TRACE := by
  simp only [constrain, LOG_LEVEL_SILENT, LOG_LEVEL_TRACE]
  split_ifs <;> omega

/-- The level invariant: threshold within `[0, 6]`. -/
def levelInv (s : Logging) : Prop := 0 ≤ s._level ∧ s._level ≤ 6

/-- Every public operation preserves the level invariant. -/
theorem levelInv_applyOp (s : Logging) (op : Op) (h : levelInv s) :
    levelInv (applyOp s op) := by
  cases op with
  | beginOp level out showLevel =>
      exact constrain_level_range level
  | setLevelOp level =>
      exact constrain_level_range level
  | setShowLevelOp b => exact h
  | setPreHookOp f => exact h
  | setPostHookOp f => exact h
  | logOp tier msg args => exact h

/-- Running any operation sequence preserves the level invariant. -/
theorem levelInv_runOps (s : Logging) (ops : List Op) (h : levelInv s) :
    levelInv (runOps s ops) := by
  induction ops generalizing s with
  | nil => exact h
  | cons op rest ih => exact ih (applyOp s op) (levelInv_applyOp s op h)

/-! ## Claims -/

/-- C3: `setLevel(x)` and `begin(x, sink, showLevel)` store the clamp of
`x` into `[0, 6]` as the threshold: afterwards `getLevel()` is `0` when
`x < 0`, `6` when `x > 6`, and `x` otherwise; in particular
`setLevel(-5)` yields `getLevel() == 0` and `setLevel(99)` yields
`getLevel() == 6`.  No input is rejected (the operations are total) and
the C++ methods return nothing (here: only the updated state). -/
theorem setLevel_begin_clamp (s : Logging) (x : Int) (out : Option PrintPtr)
    (b : Bool) :
    (s.setLevel x).getLevel = (if x < 0 then 0 else if x > 6 then 6 else x)
    ∧ (s.begin x out b).getLevel = (if x < 0 then 0 else if x > 6 then 6 else x)
    ∧ (s.setLevel (-5)).getLevel = 0
    ∧ (s.setLevel 99).getLevel = 6 := by
  refine ⟨rfl, rfl, ?_, ?_⟩ <;> rfl

/-- C7: the threshold starts at `SILENT = 0` at construction, and after
any finite sequence of public operations `getLevel()` returns a value in
`[0, 6]`. -/
theorem getLevel_always_in_range (ops : List Op) :
    Logging.init.getLevel = 0
    ∧ 0 ≤ (runOps Logging.init ops).getLevel
    ∧ (runOps Logging.init ops).getLevel ≤ 6 := by
  have h := levelInv_runOps Logging.init ops ⟨by decide, by decide⟩
  exact ⟨rfl, h.1, h.2⟩

/-- C9: repeating an identical configuration call (`setLevel`,
`setShowLevel`, `setPrefix`, `setSuffix`, `begin` with the same
arguments) is idempotent: the second call leaves the state exactly as
the first left it, hence all subsequent dispatch behaviour (here:
`printLevel` on any tier, message and arguments) is identical. -/
theorem config_calls_idempotent (s : Logging) (x : Int) (b : Bool)
    (f g : Option HookPtr) (out : Option PrintPtr) (tier : Int)
    (msg : String) (args : List Int) :
    (s.setLevel x).setLevel x = s.setLevel x
    ∧ (s.setShowLevel b).setShowLevel b = s.setShowLevel b
    ∧ (s.setPreHook f).setPreHook f = s.setPreHook f
    ∧ (s.setPostHook g).setPostHook g = s.setPostHook g
    ∧ (s.begin x out b).begin x out b = s.begin x out b
    ∧ ((s.setLevel x).setLevel x).printLevel tier msg args
        = (s.setLevel x).printLevel tier msg args := by
  have hlvl : (s.setLevel x).setLevel x = s.setLevel x := by
    simp [Logging.setLevel, constrain_level_idem]
  refine ⟨hlvl, rfl, rfl, rfl, ?_, by rw [hlvl]⟩
  simp [Logging.begin, Logging.setLevel, Logging.setShowLevel,
    constrain_level_idem]

/-- C10: every logging call (`fatal`, `error`, `warn`, `info`, `debug`,
`trace`), whether filtered out or passing, leaves the logger's
configuration state (threshold, showLevel flag, sink reference and both
hook slots) unchanged: the state component returned by each call equals
the state before the call. -/
theorem log_calls_preserve_state (s : Logging) (msg : String)
    (args : List Int) :
    (s.fatal msg args).1 = s
    ∧ (s.error msg args).1 = s
    ∧ (s.warn msg args).1 = s
    ∧ (s.info msg args).1 = s
    ∧ (s.debug msg args).1 = s
    ∧ (s.trace msg args).1 = s :=
  ⟨rfl, rfl, rfl, rfl, rfl, rfl⟩

/-- C2 is violated by the code: `printLevel` never checks `_logOutput`
for null.  At the failing input — a logger whose threshold was raised by
`setLevel(6)` without `begin` ever being called, so the sink is still
null — the call `fatal("x")` passes the threshold filter and invokes
`_logOutput->print` on the null sink: a null dereference (fault), not a
safe no-op. -/
theorem null_sink_passing_call_faults :
    (Logging.init.setLevel 6)._logOutput = none
    ∧ ((Logging.init.setLevel 6).fatal "x" []).2.fault = true
    ∧ ((Logging.init.fatal "x" []).2.fault = false
        ∧ (Logging.init.fatal "x" []).2.events = []) := by
  refine ⟨rfl, rfl, rfl, rfl⟩

/-- `printLevel` on a filtered-out tier returns immediately: no events,
no fault. -/
theorem printLevel_filtered (s : Logging) (T : Int) (msg : String)
    (args : List Int) (hc : T > s._level) :
    s.printLevel T msg args = { events := [], fault := false } := by
  simp only [Logging.printLevel, if_pos hc]

/-- `printLevel` on a passing tier with a null sink: the pre-hook (if
set) fires with the null pointer, then the first sink method call
faults. -/
theorem printLevel_null (s : Logging) (T : Int) (msg : String)
    (args : List Int) (hc : ¬ T > s._level) (h : s._logOutput = none) :
    s.printLevel T msg args =
      { events :=
          match s._preHook with
          | some f => [Event.callPre f none]
          | none => []
        fault := true } := by
  simp only [Logging.printLevel, if_neg hc, h]

/-- `printLevel` on a passing tier with a non-null sink: pre-hook,
optional glyph plus separator, formatted body, post-hook. -/
theorem printLevel_pass (s : Logging) (T : Int) (msg : String)
    (args : List Int) (out : PrintPtr) (hc : ¬ T > s._level)
    (h : s._logOutput = some out) :
    s.printLevel T msg args =
      { events :=
          (match s._preHook with
           | some f => [Event.callPre f (some out)]
           | none => []) ++
          ((if s._showLevel then
              [Event.printChar out (glyphAt T), Event.printStr out ": "]
            else []) ++
           ([Event.printfCall out msg args] ++
            (match s._postHook with
             | some f => [Event.callPost f (some out)]
             | none => [])))
        fault := false } := by
  simp only [Logging.printLevel, if_neg hc, h]
  simp [List.append_assoc]

/-- C1: for every threshold in `[0, 6]` and every tier `T` in `1..6`
(the constants the six entry points pass to `printLevel`), a call at
tier `T` produces output to the sink iff `T ≤ threshold`; when
`T > threshold`, the call returns immediately with no events at all —
in particular no output and no hook invocation. -/
theorem output_iff_tier_le_threshold (s : Logging) (T : Int) (msg : String)
    (args : List Int) (hT1 : 1 ≤ T) (hT6 : T ≤ 6)
    (hL0 : 0 ≤ s._level) (hL6 : s._level ≤ 6)
    (out : PrintPtr) (hout : s._logOutput = some out) :
    ((s.printLevel T msg args).events.any Event.isSinkWrite = true
      ↔ T ≤ s._level)
    ∧ (T > s._level →
        s.printLevel T msg args = { events := [], fault := false }
        ∧ (s.printLevel T msg args).events.any Event.isHookCall = false) := by
  by_cases hc : T > s._level
  · rw [printLevel_filtered s T msg args hc]
    constructor
    · simp
      omega
    · intro _
      exact ⟨rfl, by simp⟩
  · rw [printLevel_pass s T msg args out hc hout]
    constructor
    · cases hpre : s._preHook <;> cases hpost : s._postHook <;>
        cases hshow : s._showLevel <;>
        simp [Event.isSinkWrite] <;> omega
    · intro h
      exact absurd h hc

/-- C1 witness at threshold 3 (set via `begin`), tier 2, message `"x"`. -/
theorem output_iff_tier_le_threshold_witness :
    (1:Int) ≤ 2 ∧ (2:Int) ≤ 6
    ∧ 0 ≤ (Logging.init.begin 3 (some 0) true)._level
    ∧ (Logging.init.begin 3 (some 0) true)._level ≤ 6
    ∧ (Logging.init.begin 3 (some 0) true)._logOutput = some 0
    ∧ ((((Logging.init.begin 3 (some 0) true).printLevel 2 "x" []).events.any
          Event.isSinkWrite = true
        ↔ (2:Int) ≤ (Logging.init.begin 3 (some 0) true)._level)
      ∧ ((2:Int) > (Logging.init.begin 3 (some 0) true)._level →
          (Logging.init.begin 3 (some 0) true).printLevel 2 "x" []
              = { events := [], fault := false }
          ∧ (((Logging.init.begin 3 (some 0) true).printLevel 2 "x" []).events.any
                Event.isHookCall = false))) :=
  ⟨by decide, by decide, by decide, by decide, rfl,
    output_iff_tier_le_threshold (Logging.init.begin 3 (some 0) true) 2 "x" []
      (by decide) (by decide) (by decide) (by decide) 0 rfl⟩

/-- C4: with `showLevel` true, on a passing call at tier `T` in `1..6`
the sink receives exactly one character — the glyph table `F,E,W,I,D,T`
at index `T - 1` — then the literal `": "`, then the formatted body,
and nothing else. -/
theorem glyph_and_separator_before_body (s : Logging) (T : Int)
    (msg : String) (args : List Int) (out : PrintPtr)
    (hT1 : 1 ≤ T) (hT6 : T ≤ 6) (hshow : s._showLevel = true)
    (hout : s._logOutput = some out) (hpass : T ≤ s._level) :
    (s.printLevel T msg args).events.filter Event.isSinkWrite =
      [Event.printChar out (levelGlyphs.getD (T - 1).toNat 'F'),
       Event.printStr out ": ",
       Event.printfCall out msg args] := by
  rw [printLevel_pass s T msg args out (by omega) hout]
  cases hpre : s._preHook <;> cases hpost : s._postHook <;>
    simp [hshow, Event.isSinkWrite, glyphAt]

/-- C4 witness: `fatal("x")` (tier 1) on a trace-threshold logger with
`showLevel = true` makes the sink receive `'F'`, `": "`, then the body
`"x"` — i.e. `F: x`. -/
theorem glyph_and_separator_before_body_witness :
    (1:Int) ≤ 1 ∧ (1:Int) ≤ 6
    ∧ (Logging.init.begin 6 (some 0) true)._showLevel = true
    ∧ (Logging.init.begin 6 (some 0) true)._logOutput = some 0
    ∧ (1:Int) ≤ (Logging.init.begin 6 (some 0) true)._level
    ∧ ((Logging.init.begin 6 (some 0) true).printLevel 1 "x" []).events.filter
        Event.isSinkWrite =
      [Event.printChar 0 (levelGlyphs.getD ((1:Int) - 1).toNat 'F'),
       Event.printStr 0 ": ",
       Event.printfCall 0 "x" []] :=
  ⟨by decide, by decide, rfl, rfl, by decide,
    glyph_and_separator_before_body (Logging.init.begin 6 (some 0) true) 1 "x" []
      0 (by decide) (by decide) rfl rfl (by decide)⟩

/-- C6: with `showLevel` false, a passing call emits the formatted body
as the only sink write — no glyph character and no `": "` separator. -/
theorem no_glyph_when_showLevel_false (s : Logging) (T : Int)
    (msg : String) (args : List Int) (out : PrintPtr)
    (hshow : s._showLevel = false) (hout : s._logOutput = some out)
    (hpass : T ≤ s._level) :
    (s.printLevel T msg args).events.filter Event.isSinkWrite
      = [Event.printfCall out msg args] := by
  rw [printLevel_pass s T msg args out (by omega) hout]
  cases hpre : s._preHook <;> cases hpost : s._postHook <;>
    simp [hshow, Event.isSinkWrite]

/-- C6 witness: tier 5 call with `showLevel = false` at threshold 6. -/
theorem no_glyph_when_showLevel_false_witness :
    (Logging.init.begin 6 (some 0) false)._showLevel = false
    ∧ (Logging.init.begin 6 (some 0) false)._logOutput = some 0
    ∧ (5:Int) ≤ (Logging.init.begin 6 (some 0) false)._level
    ∧ ((Logging.init.begin 6 (some 0) false).printLevel 5 "m" [3]).events.filter
        Event.isSinkWrite = [Event.printfCall 0 "m" [3]] :=
  ⟨rfl, rfl, by decide,
    no_glyph_when_showLevel_false (Logging.init.begin 6 (some 0) false) 5 "m" [3]
      0 rfl rfl (by decide)⟩

/-- C5: with both hooks installed and a non-null sink, a passing-tier
call produces: the pre-hook invocation (with the sink pointer as sole
argument), then the message body (only sink writes, at least one), then
the post-hook invocation (same argument), each hook exactly once; a
filtered-out call produces no events, so it invokes neither hook. -/
theorem hook_order_and_exactly_once (s : Logging) (T : Int) (msg : String)
    (args : List Int) (pf sf : HookPtr) (out : PrintPtr)
    (hpre : s._preHook = some pf) (hpost : s._postHook = some sf)
    (hout : s._logOutput = some out) :
    (T ≤ s._level →
      ∃ body : List Event,
        (s.printLevel T msg args).events
          = Event.callPre pf (some out)
              :: (body ++ [Event.callPost sf (some out)])
        ∧ body ≠ []
        ∧ body.all Event.isSinkWrite = true
        ∧ (s.printLevel T msg args).events.countP Event.isPre = 1
        ∧ (s.printLevel T msg args).events.countP Event.isPost = 1)
    ∧ (s._level < T →
        s.printLevel T msg args = { events := [], fault := false }) := by
  constructor
  · intro hpass
    rw [printLevel_pass s T msg args out (by omega) hout, hpre, hpost]
    refine ⟨(if s._showLevel then
        [Event.printChar out (glyphAt T), Event.printStr out ": "]
      else []) ++ [Event.printfCall out msg args], ?_, ?_, ?_, ?_, ?_⟩ <;>
      cases hshow : s._showLevel <;>
      simp [Event.isSinkWrite, Event.isPre, Event.isPost, List.countP_cons,
        List.countP_append]
  · intro h
    exact printLevel_filtered s T msg args (by omega)

/-- C5 witness: both hooks set, threshold 6, tier 4. -/
theorem hook_order_and_exactly_once_witness :
    (((Logging.init.begin 6 (some 0) true).setPreHook (some 7)).setPostHook
        (some 8))._preHook = some 7
    ∧ (((Logging.init.begin 6 (some 0) true).setPreHook (some 7)).setPostHook
        (some 8))._postHook = some 8
    ∧ (((Logging.init.begin 6 (some 0) true).setPreHook (some 7)).setPostHook
        (some 8))._logOutput = some 0
    ∧ (((4:Int) ≤ (((Logging.init.begin 6 (some 0) true).setPreHook
          (some 7)).setPostHook (some 8))._level →
        ∃ body : List Event,
          ((((Logging.init.begin 6 (some 0) true).setPreHook (some 7)).setPostHook
              (some 8)).printLevel 4 "m" [1, 2]).events
            = Event.callPre 7 (some 0)
                :: (body ++ [Event.callPost 8 (some 0)])
          ∧ body ≠ []
          ∧ body.all Event.isSinkWrite = true
          ∧ ((((Logging.init.begin 6 (some 0) true).setPreHook (some 7)).setPostHook
              (some 8)).printLevel 4 "m" [1, 2]).events.countP Event.isPre = 1
          ∧ ((((Logging.init.begin 6 (some 0) true).setPreHook (some 7)).setPostHook
              (some 8)).printLevel 4 "m" [1, 2]).events.countP Event.isPost = 1)
      ∧ ((((Logging.init.begin 6 (some 0) true).setPreHook (some 7)).setPostHook
            (some 8))._level < (4:Int) →
          (((Logging.init.begin 6 (some 0) true).setPreHook (some 7)).setPostHook
              (some 8)).printLevel 4 "m" [1, 2]
            = { events := [], fault := false })) :=
  ⟨rfl, rfl, rfl,
    hook_order_and_exactly_once
      (((Logging.init.begin 6 (some 0) true).setPreHook (some 7)).setPostHook
        (some 8)) 4 "m" [1, 2] 7 8 0 rfl rfl rfl⟩

/-- C8: after a pre-hook (resp. post-hook) was set, clearing that slot
with a null pointer stops all its future invocations on any call, while
the other slot, the rest of the state, and the other hook's invocation
behaviour are unchanged. -/
theorem disable_hook_stops_invocations (s : Logging) (pf sf : HookPtr)
    (T : Int) (msg : String) (args : List Int)
    (hpre : s._preHook = some pf) (hpost : s._postHook = some sf) :
    ((s.setPreHook none)._postHook = s._postHook
      ∧ (s.setPreHook none)._level = s._level
      ∧ (s.setPreHook none)._showLevel = s._showLevel
      ∧ (s.setPreHook none)._logOutput = s._logOutput
      ∧ ((s.setPreHook none).printLevel T msg args).events.countP
          Event.isPre = 0
      ∧ ((s.setPreHook none).printLevel T msg args).events.filter Event.isPost
          = (s.printLevel T msg args).events.filter Event.isPost)
    ∧ ((s.setPostHook none)._preHook = s._preHook
      ∧ (s.setPostHook none)._level = s._level
      ∧ (s.setPostHook none)._showLevel = s._showLevel
      ∧ (s.setPostHook none)._logOutput = s._logOutput
      ∧ ((s.setPostHook none).printLevel T msg args).events.countP
          Event.isPost = 0
      ∧ ((s.setPostHook none).printLevel T msg args).events.filter Event.isPre
          = (s.printLevel T msg args).events.filter Event.isPre) := by
  refine ⟨⟨rfl, rfl, rfl, rfl, ?_, ?_⟩, ⟨rfl, rfl, rfl, rfl, ?_, ?_⟩⟩ <;>
    simp only [Logging.printLevel, Logging.setPreHook, Logging.setPostHook,
      hpre, hpost] <;>
    by_cases hc : T > s._level <;>
    cases hout : s._logOutput <;>
    cases hshow : s._showLevel <;>
    simp [hc, Event.isPre, Event.isPost, List.countP_cons, List.countP_append]

/-- C8 witness: both hooks set, then each cleared in turn, tier 2. -/
theorem disable_hook_stops_invocations_witness :
    ((((Logging.init.begin 6 (some 0) true).setPreHook (some 7)).setPostHook
        (some 8))._preHook = some 7)
    ∧ ((((Logging.init.begin 6 (some 0) true).setPreHook (some 7)).setPostHook
        (some 8))._postHook = some 8)
    ∧ (((((Logging.init.begin 6 (some 0) true).setPreHook (some 7)).setPostHook
          (some 8)).setPreHook none).printLevel 2 "x" []).events.countP
        Event.isPre = 0
    ∧ (((((Logging.init.begin 6 (some 0) true).setPreHook (some 7)).setPostHook
          (some 8)).setPostHook none).printLevel 2 "x" []).events.countP
        Event.isPost = 0 := by
  have h := disable_hook_stops_invocations
    (((Logging.init.begin 6 (some 0) true).setPreHook (some 7)).setPostHook
      (some 8)) 7 8 2 "x" [] rfl rfl
  exact ⟨rfl, rfl, h.1.2.2.2.2.1, h.2.2.2.2.2.1⟩
